import Mathlib

/-!
Verification of the identity-and-credential core of the SmartGrid / Microgrid
Exchange service (`src/index.py`).

The embedding is shallow and faithful to the Python source:

* `bcrypt` is an external library; it is modelled as a deterministic salted
  digest.  `bcrypt.gensalt()`'s randomness and the default cost factor become
  explicit parameters (`salt : Nat`, cost fixed at 12); `bcrypt.hashpw`
  produces a self-describing record `(cost, salt, digest)` and
  `bcrypt.checkpw` recomputes the digest with the record's own stored salt and
  cost and compares.  Only the functional shape (determinism in password and
  salt, recompute-and-compare verification) is relied on, exactly what the
  claims use.
* MongoDB collections become in-memory lists of documents; `find_one` becomes
  a list lookup and `insert_one` an append.
* `random.randint(1000, 9999)` becomes an explicit stream `draws : Nat → Nat`
  of drawn numbers; its contract (results lie in `[1000, 9999]`) is a
  hypothesis where needed.
* The unbounded `while True` loop of `generate_user_id` is observed through a
  fuel parameter: `none` means the loop has not produced a result within
  `fuel` iterations (it is still running); `some uid` means it returned `uid`.
* Request fields come from `data.get(...)` and may be absent: they are
  `Option String`.  Python truthiness of such a value (`not x`) is `truthy`.
* Python's `int(...)` on a string is modelled by `pyInt` (optional sign
  followed by decimal digits; `none` stands for the `ValueError` raised on
  anything else).  On `None`, `int(...)` raises `TypeError`, which the
  `except ValueError` clause does not catch.
-/

/-- Model of `bcrypt`'s one-way digest: a deterministic mixing of the password
bytes with the salt and cost factor (stands in for the real Blowfish-based
computation, which is opaque to the claims). -/
def bcryptDigest (password : String) (salt cost : Nat) : Nat :=
  password.data.foldl (fun a c => (a * 131 + c.toNat + 1) % 2 ^ 64)
    ((salt % 2 ^ 64) * 2 ^ 8 + cost % 2 ^ 8)

/-- A stored bcrypt hash is self-describing: it records the cost factor and the
salt next to the digest (in the real library all three are packed into the
`$2b$..$..` text form). -/
structure BcryptHash where
  cost : Nat
  salt : Nat
  digest : Nat
deriving DecidableEq

/-- Model of `bcrypt.hashpw(password, salt)`: the output record carries the
cost, the salt and the digest of the password under them. -/
def bcrypt_hashpw (password : String) (salt cost : Nat) : BcryptHash :=
  ⟨cost, salt, bcryptDigest password salt cost⟩

/-- Model of `bcrypt.checkpw(password, stored)`: recompute the digest using the
salt and cost stored in the record and compare. -/
def bcrypt_checkpw (password : String) (stored : BcryptHash) : Bool :=
  decide (bcrypt_hashpw password stored.salt stored.cost = stored)

/-- Embedding of `hash_password` from `src/index.py` (lines 23–28): hash with a fresh salt
from `bcrypt.gensalt()` (modelled as the explicit `salt` argument; the default
cost factor is 12).  There is no check on the plaintext. -/
def hash_password (password : String) (salt : Nat) : BcryptHash :=
  bcrypt_hashpw password salt 12

/-- Embedding of `verify_password` from `src/index.py` (lines 30–32). -/
def verify_password (stored_hash : BcryptHash) (provided_password : String) : Bool :=
  bcrypt_checkpw provided_password stored_hash

/-- A document of the `user_profiles` collection, as built in `signup`
(lines 68–77).  Fields other than `user_id`, `created_on` and
`linked_infrastructures` are stored exactly as returned by `data.get(...)`,
hence `Option String`. -/
structure UserProfile where
  user_id : String
  name : Option String
  user_category : Option String
  user_type : Option String
  location : Option String
  created_on : String
  eco_index : Option String
  linked_infrastructures : List String
deriving DecidableEq

/-- The `password` sub-document of a `user_authentications` document
(lines 85–89). -/
structure PasswordDoc where
  current_hash : BcryptHash
  updates : List BcryptHash
  last_updated : String
deriving DecidableEq

/-- A document of the `user_authentications` collection (lines 83–90). -/
structure UserAuth where
  user_id : String
  password : PasswordDoc
deriving DecidableEq

/-- The two MongoDB collections the service uses (lines 12–13). -/
structure Stores where
  user_profiles : List UserProfile
  user_authentications : List UserAuth
deriving DecidableEq

/-- Python truthiness of a `data.get(...)` result: `None` and the empty string
are falsy, every other string is truthy. -/
def truthy : Option String → Bool
  | none => false
  | some s => s ≠ ""

/-- Python `f"...{x}..."` rendering of a `data.get(...)` result. -/
def pyStr : Option String → String
  | none => "None"
  | some s => s

/-- Decimal digits to a number, or `none` when the list is empty or contains a
non-digit. -/
def pyIntDigits (cs : List Char) : Option Nat :=
  if cs.isEmpty then none
  else if cs.all Char.isDigit then
    some (cs.foldl (fun n c => n * 10 + (c.toNat - 48)) 0)
  else none

/-- Model of Python's `int(...)` applied to a string (as on lines 53–54): an
optional sign followed by decimal digits parses; `none` stands for the
`ValueError` every other string raises. -/
def pyInt (s : String) : Option Int :=
  match s.data with
  | '-' :: rest => (pyIntDigits rest).map (fun n => -(n : Int))
  | '+' :: rest => (pyIntDigits rest).map (fun n => (n : Int))
  | cs => (pyIntDigits cs).map (fun n => (n : Int))

/-- The string `f"U{n}"` built by `generate_user_id` (line 18). -/
def mkUserId (n : Nat) : String :=
  "U" ++ Nat.repr n

/-- Whether `user_profiles_collection.find_one({"user_id": uid})` finds a
document (line 20): some stored profile carries this `user_id`. -/
def idTaken (profiles : List UserProfile) (uid : String) : Bool :=
  profiles.any (fun p => p.user_id == uid)

/-- Embedding of `generate_user_id` from `src/index.py` (lines 15–21).  The source is an
unbounded `while True:` loop; `fuel` bounds how many iterations we observe and
`none` means the loop is still running after `fuel` iterations.  `draws k` is
the result of the `k`-th call to `random.randint(1000, 9999)`. -/
def generate_user_id (fuel : Nat) (draws : Nat → Nat) (profiles : List UserProfile) :
    Option String :=
  match fuel with
  | 0 => none
  | fuel + 1 =>
    let user_id := mkUserId (draws 0)
    if idTaken profiles user_id then
      generate_user_id fuel (fun k => draws (k + 1)) profiles
    else
      some user_id

/-- The JSON bodies `signup` can answer with, plus the two ways the handler can
fail to answer: `typeError` for the uncaught `TypeError` raised by `int(None)`
(the `except` clause only catches `ValueError`). -/
inductive SignupResult where
  /-- "Invalid captcha input", HTTP 400 (the `except ValueError` branch). -/
  | captchaInvalid : SignupResult
  /-- "Captcha verification failed", HTTP 400. -/
  | captchaMismatch : SignupResult
  /-- Uncaught `TypeError` from `int(None)` when a captcha field is absent. -/
  | typeError : SignupResult
  /-- "Missing required fields", HTTP 400. -/
  | missingFields : SignupResult
  /-- The success body: the welcome message and the `user_profile` document. -/
  | success (message : String) (profile : UserProfile) : SignupResult
deriving DecidableEq

/-- The fields `signup` extracts from the request JSON (lines 43–50). -/
structure SignupRequest where
  name : Option String
  user_category : Option String
  user_type : Option String
  location : Option String
  eco_index : Option String
  password : Option String
  captcha_answer : Option String
  client_captcha : Option String
deriving DecidableEq

/-- Embedding of `signup` from `src/index.py` (lines 39–94).  Explicit parameters stand for
the handler's ambient effects: `st` the MongoDB state, `draws` the
`random.randint` stream, `salt` the salt drawn by `bcrypt.gensalt()`, `now`
the ISO-8601 rendering of `datetime.datetime.now(utc)`, and `fuel` the number
of `generate_user_id` iterations we observe (`none` = still looping there).
Returns the response together with the updated state. -/
def signup (req : SignupRequest) (st : Stores) (draws : Nat → Nat) (salt : Nat)
    (now : String) (fuel : Nat) : Option (SignupResult × Stores) :=
  -- lines 45–46: user_type / location are forced empty unless category is "User"
  let user_type := if req.user_category == some "User" then req.user_type else some ""
  let location := if req.user_category == some "User" then req.location else some ""
  -- lines 52–57: captcha comparison; int(None) raises TypeError (uncaught)
  match req.captcha_answer with
  | none => some (.typeError, st)
  | some ca =>
    match pyInt ca with
    | none => some (.captchaInvalid, st)
    | some a =>
      match req.client_captcha with
      | none => some (.typeError, st)
      | some cc =>
        match pyInt cc with
        | none => some (.captchaInvalid, st)
        | some c =>
          if a ≠ c then some (.captchaMismatch, st)
          else
            -- lines 59–61: `not all([name, user_category, eco_index, password])`
            if !(truthy req.name && truthy req.user_category &&
                 truthy req.eco_index && truthy req.password) then
              some (.missingFields, st)
            else
              -- line 64: allocate the identity against the current profiles
              match generate_user_id fuel draws st.user_profiles with
              | none => none
              | some user_id =>
                -- lines 65–79: build and insert the profile document
                let created_on := now
                let user_profile : UserProfile :=
                  { user_id := user_id
                    name := req.name
                    user_category := req.user_category
                    user_type := user_type
                    location := location
                    created_on := created_on
                    eco_index := req.eco_index
                    linked_infrastructures := [] }
                let st1 : Stores :=
                  { st with user_profiles := st.user_profiles ++ [user_profile] }
                -- lines 82–91: hash the password, build and insert the auth document
                let hashed_pw := hash_password (pyStr req.password) salt
                let user_auth : UserAuth :=
                  { user_id := user_id
                    password :=
                      { current_hash := hashed_pw
                        updates := []
                        last_updated := created_on } }
                let st2 : Stores :=
                  { st1 with
                    user_authentications := st1.user_authentications ++ [user_auth] }
                -- line 94
                some (.success ("Welcome, " ++ pyStr req.name ++ "!") user_profile, st2)

/-- The JSON bodies `login` can answer with. -/
inductive LoginResult where
  /-- "Missing required fields", HTTP 400. -/
  | missingFields : LoginResult
  /-- "User does not exist", HTTP 400. -/
  | unknownUser : LoginResult
  /-- "Invalid password", HTTP 400. -/
  | invalidPassword : LoginResult
  /-- "Login successful". -/
  | success : LoginResult
deriving DecidableEq

/-- Embedding of `login` from `src/index.py` (lines 96–114).  `auths` is the
`user_authentications` collection (login never writes). -/
def login (identifier password : Option String) (auths : List UserAuth) : LoginResult :=
  if !truthy identifier || !truthy password then .missingFields
  else
    match auths.find? (fun a => a.user_id == pyStr identifier) with
    | none => .unknownUser
    | some user_auth =>
      if verify_password user_auth.password.current_hash (pyStr password) then .success
      else .invalidPassword

/-- The pattern `U[0-9]{4}` from the spec: the literal `U` followed by exactly
four decimal digits. -/
def matchesUPattern (s : String) : Bool :=
  s.data.head? == some 'U' && s.data.tail.length == 4 && s.data.tail.all Char.isDigit

/-- The captcha check of lines 52–57 passes: both fields are present, both
parse as integers, and the two integers are equal. -/
def captchaOk (req : SignupRequest) : Bool :=
  match req.captcha_answer.bind pyInt, req.client_captcha.bind pyInt with
  | some a, some c => a == c
  | _, _ => false

/-- The `user_profile` document that `signup` builds (lines 68–77) once the
allocator has returned `uid`, with `now` the rendered current UTC time. -/
def builtProfile (req : SignupRequest) (uid now : String) : UserProfile :=
  { user_id := uid
    name := req.name
    user_category := req.user_category
    user_type := if req.user_category == some "User" then req.user_type else some ""
    location := if req.user_category == some "User" then req.location else some ""
    created_on := now
    eco_index := req.eco_index
    linked_infrastructures := [] }

/-- The `user_auth` document that `signup` builds (lines 82–90). -/
def builtAuth (req : SignupRequest) (uid now : String) (salt : Nat) : UserAuth :=
  { user_id := uid
    password :=
      { current_hash := hash_password (pyStr req.password) salt
        updates := []
        last_updated := now } }

/-! ## Concrete fixtures used by witnesses and counterexamples -/

/-- An empty pair of collections (a fresh store instance). -/
def st0 : Stores := ⟨[], []⟩

/-- A `random.randint` stream that always draws 1234. -/
def d1234 : Nat → Nat := fun _ => 1234

/-- The spec's concrete signup scenario for category `User`. -/
def reqAsha : SignupRequest :=
  { name := some "Asha", user_category := some "User", user_type := some "Individual"
    location := some "Pune", eco_index := some "B", password := some "secretpw"
    captcha_answer := some "7", client_captcha := some "7" }

/-- The spec's concrete signup scenario for category `Admin`, with non-empty
type and location supplied. -/
def reqAdmin : SignupRequest :=
  { name := some "Bea", user_category := some "Admin", user_type := some "Organisation"
    location := some "Delhi", eco_index := some "A", password := some "adminpw"
    captcha_answer := some "3", client_captcha := some "3" }

/-- A stored profile occupying the identifier `U1000`. -/
def profU1000 : UserProfile :=
  { user_id := "U1000", name := some "x", user_category := some "User"
    user_type := some "Individual", location := some "Pune"
    created_on := "2025-01-01T00:00:00+00:00", eco_index := some "A"
    linked_infrastructures := [] }

/-- A stored credential document for `U1234`, hashing the password `pw`. -/
def credU1234 : UserAuth :=
  { user_id := "U1234"
    password :=
      { current_hash := hash_password "pw" 5, updates := []
        last_updated := "2025-01-01T00:00:00+00:00" } }

/-- A signup request identical to the spec's `User` scenario except that the
`name` field is absent. -/
def reqNoName : SignupRequest := { reqAsha with name := none }

/-- A signup request identical to the spec's `User` scenario except that the
`password` field is absent. -/
def reqNoPassword : SignupRequest := { reqAsha with password := none }

/-- The profile that signing up `reqAsha` on a fresh store creates when the
allocator draws 1234 and the clock reads `t`. -/
def profAsha : UserProfile :=
  { user_id := "U1234", name := some "Asha", user_category := some "User"
    user_type := some "Individual", location := some "Pune", created_on := "t"
    eco_index := some "B", linked_infrastructures := [] }

/-- The credential document that the same signup creates with salt 7. -/
def authAsha : UserAuth :=
  { user_id := "U1234"
    password := { current_hash := hash_password "secretpw" 7, updates := []
                  last_updated := "t" } }

/-- The store after the `reqAsha` signup. -/
def stAsha : Stores := ⟨[profAsha], [authAsha]⟩

/-- The profile created for the `Admin` scenario `reqAdmin`: the supplied type
`Organisation` and location `Delhi` are replaced by empty strings. -/
def profAdmin : UserProfile :=
  { user_id := "U1234", name := some "Bea", user_category := some "Admin"
    user_type := some "", location := some "", created_on := "t"
    eco_index := some "A", linked_infrastructures := [] }

/-- The credential document of the `Admin` scenario with salt 7. -/
def authAdmin : UserAuth :=
  { user_id := "U1234"
    password := { current_hash := hash_password "adminpw" 7, updates := []
                  last_updated := "t" } }

/-- The store after the `reqAdmin` signup. -/
def stAdmin : Stores := ⟨[profAdmin], [authAdmin]⟩

/-! ## Helper lemmas -/

/-- Recomputing a hash with the record's own stored salt and cost reproduces
the record, so verification of the hashed password always succeeds. -/
theorem hash_verify_roundTrip (p : String) (salt : Nat) :
    verify_password (hash_password p salt) p = true := by
  simp [verify_password, hash_password, bcrypt_checkpw, bcrypt_hashpw]

/-- The identifier loop is still running after `fuel` iterations exactly when
each of the first `fuel` draws collides with a stored `user_id`. -/
theorem generate_user_id_none_iff (fuel : Nat) :
    ∀ (draws : Nat → Nat) (profiles : List UserProfile),
      generate_user_id fuel draws profiles = none ↔
        ∀ k < fuel, idTaken profiles (mkUserId (draws k)) = true := by
  induction fuel with
  | zero => intro draws profiles; simp [generate_user_id]
  | succ f ih =>
    intro draws profiles
    by_cases h : idTaken profiles (mkUserId (draws 0)) = true
    · rw [show generate_user_id (f + 1) draws profiles =
            generate_user_id f (fun k => draws (k + 1)) profiles by
          simp [generate_user_id, h]]
      rw [ih]
      constructor
      · intro hall k hk
        match k with
        | 0 => exact h
        | k + 1 => exact hall k (by omega)
      · intro hall k hk
        exact hall (k + 1) (by omega)
    · rw [show generate_user_id (f + 1) draws profiles = some (mkUserId (draws 0)) by
          simp [generate_user_id, h]]
      simp only [reduceCtorEq, false_iff, not_forall]
      exact ⟨0, by omega, h⟩

/-! ## Claims -/

/-- C1: for every non-empty password `p`, verifying `p` against the record
produced by hashing `p` succeeds: `verify_password (hash_password p) p` is
`true`. -/
theorem C1_hash_verify_roundtrip (p : String) (salt : Nat) (_hp : p ≠ "") :
    verify_password (hash_password p salt) p = true :=
  hash_verify_roundTrip p salt

/-- Witness for C1 at the spec's concrete password `secretpw`. -/
theorem C1_witness :
    "secretpw" ≠ "" ∧ verify_password (hash_password "secretpw" 7) "secretpw" = true :=
  ⟨by decide, C1_hash_verify_roundtrip "secretpw" 7 (by decide)⟩

/-- C4 counterexample: `hash_password` does not fail on the empty plaintext.
There is no emptiness check anywhere in `hash_password` (lines 23–28): the
empty string is hashed like any other password, and the resulting record is a
normal, verifiable credential record — not a `WeakInputError`. -/
theorem C4_counterexample :
    verify_password (hash_password "" 0) "" = true := by decide

/-- C4 amended: `hash_password` accepts every plaintext, the empty string
included, and returns a credential record that verifies against the same
plaintext; it has no `WeakInputError` (or any other failure) path. -/
theorem C4_amended_no_weak_input_check (p : String) (salt : Nat) :
    verify_password (hash_password p salt) p = true :=
  hash_verify_roundTrip p salt

/-- C5 counterexample: with a store occupying `U1000` and a `random.randint`
stream that always draws 1000, `generate_user_id` has produced no outcome
after 1001 iterations — beyond the claimed cap of 1000 tries it has neither
returned an identifier nor failed with `ExhaustedIdentitySpace` (the source
has no failure outcome at all: the `while True:` loop of lines 17–21 is
unbounded). -/
theorem C5_counterexample :
    generate_user_id 1001 (fun _ => 1000) [profU1000] = none :=
  (generate_user_id_none_iff 1001 (fun _ => 1000) [profU1000]).mpr
    (fun _ _ => by decide)

/-- C5 amended: `generate_user_id` has no attempt cap and no
`ExhaustedIdentitySpace` error.  Observed for any number `fuel` of iterations
of its unbounded `while True:` loop, it is still looping (has produced no
outcome) precisely when every one of the first `fuel` draws collides with a
`user_id` already present in the profile store; in particular it retries
forever while draws keep colliding. -/
theorem C5_generate_user_id_unbounded (fuel : Nat) (draws : Nat → Nat)
    (profiles : List UserProfile) :
    generate_user_id fuel draws profiles = none ↔
      ∀ k < fuel, idTaken profiles (mkUserId (draws k)) = true :=
  generate_user_id_none_iff fuel draws profiles

/-- C7 counterexample: the identifier `""` was never inserted (the credential
store is empty), yet `login` answers `missingFields` ("Missing required
fields", from the falsy-field check of lines 102–103), not `unknownUser`
("User does not exist"). -/
theorem C7_counterexample :
    login (some "") (some "pw") [] = LoginResult.missingFields ∧
    LoginResult.missingFields ≠ LoginResult.unknownUser := by decide

/-- C7 amended: for every login call whose identifier and password are both
present and non-empty, if no credential document carries the given identifier
as its `user_id`, `login` fails with `unknownUser` ("User does not exist"). -/
theorem C7_login_unknown_user (identifier password : Option String)
    (auths : List UserAuth) (hid : truthy identifier = true)
    (hpw : truthy password = true)
    (habs : ∀ a ∈ auths, a.user_id ≠ pyStr identifier) :
    login identifier password auths = LoginResult.unknownUser := by
  have hf : auths.find? (fun a => a.user_id == pyStr identifier) = none := by
    rw [List.find?_eq_none]
    intro a ha
    simpa using habs a ha
  simp [login, hid, hpw, hf]

/-- Witness for C7 at identifier `U9999` against an empty credential store. -/
theorem C7_witness :
    truthy (some "U9999") = true ∧ truthy (some "pw") = true ∧
    login (some "U9999") (some "pw") [] = LoginResult.unknownUser :=
  ⟨by decide, by decide,
    C7_login_unknown_user (some "U9999") (some "pw") [] (by decide) (by decide)
      (by simp)⟩

/-- C8 counterexample: the credential record for `U1234` exists and the
supplied empty password does not verify against its stored hash, yet `login`
answers `missingFields` (lines 102–103 treat the empty password as missing),
not `invalidPassword`. -/
theorem C8_counterexample :
    verify_password credU1234.password.current_hash (pyStr (some "")) = false ∧
    login (some "U1234") (some "") [credU1234] = LoginResult.missingFields ∧
    LoginResult.missingFields ≠ LoginResult.invalidPassword := by decide

/-- C8 amended: for every login call whose identifier and password are both
present and non-empty, if the identifier's credential document is found but
the supplied password does not verify against its stored hash, `login` fails
with `invalidPassword` ("Invalid password") — in particular not with
`unknownUser`. -/
theorem C8_login_invalid_password (identifier password : Option String)
    (auths : List UserAuth) (ua : UserAuth) (hid : truthy identifier = true)
    (hpw : truthy password = true)
    (hfind : auths.find? (fun a => a.user_id == pyStr identifier) = some ua)
    (hver : verify_password ua.password.current_hash (pyStr password) = false) :
    login identifier password auths = LoginResult.invalidPassword ∧
    login identifier password auths ≠ LoginResult.unknownUser := by
  have : login identifier password auths = LoginResult.invalidPassword := by
    simp [login, hid, hpw, hfind, hver]
  exact ⟨this, by rw [this]; exact fun hcon => by cases hcon⟩

/-- Witness for C8: wrong password `wrong` against the stored hash of `pw`
for `U1234`. -/
theorem C8_witness :
    login (some "U1234") (some "wrong") [credU1234] = LoginResult.invalidPassword ∧
    login (some "U1234") (some "wrong") [credU1234] ≠ LoginResult.unknownUser :=
  C8_login_invalid_password (some "U1234") (some "wrong") [credU1234] credU1234
    (by decide) (by decide) (by decide) (by decide)

/-- Every decimal digit rendered by `Nat.digitChar` is a digit character. -/
theorem digitChar_isDigit : ∀ m < 10, (Nat.digitChar m).isDigit = true := by decide

/-- Length of the digit list produced by `Nat.toDigitsCore` in base 10, for
sufficient fuel: one character per decimal digit, in front of the
accumulator. -/
theorem toDigitsCore_length (fuel : Nat) :
    ∀ (n : Nat) (acc : List Char), n < fuel →
      (Nat.toDigitsCore 10 fuel n acc).length = acc.length + Nat.log 10 n + 1 := by
  induction fuel with
  | zero => intro n acc h; exact absurd h (Nat.not_lt_zero n)
  | succ f ih =>
    intro n acc h
    by_cases h0 : n / 10 = 0
    · have hn : n < 10 := by omega
      have hlog : Nat.log 10 n = 0 := Nat.log_eq_zero_iff.mpr (Or.inl hn)
      simp [Nat.toDigitsCore, h0, hlog]
    · have h10 : 10 ≤ n := by omega
      have hstep : Nat.toDigitsCore 10 (f + 1) n acc =
          Nat.toDigitsCore 10 f (n / 10) (Nat.digitChar (n % 10) :: acc) := by
        simp [Nat.toDigitsCore, h0]
      rw [hstep, ih (n / 10) (Nat.digitChar (n % 10) :: acc) (by omega)]
      have hdiv : Nat.log 10 (n / 10) = Nat.log 10 n - 1 := Nat.log_div_base 10 n
      have hpos : 0 < Nat.log 10 n := Nat.log_pos (by norm_num) h10
      simp only [List.length_cons]
      omega

/-- Every character produced by `Nat.toDigitsCore` in base 10 is a decimal
digit (provided the accumulator already consists of digits). -/
theorem toDigitsCore_digits (fuel : Nat) :
    ∀ (n : Nat) (acc : List Char), (∀ c ∈ acc, c.isDigit = true) →
      ∀ c ∈ Nat.toDigitsCore 10 fuel n acc, c.isDigit = true := by
  induction fuel with
  | zero =>
    intro n acc hacc
    simpa [Nat.toDigitsCore] using hacc
  | succ f ih =>
    intro n acc hacc
    have hd : (Nat.digitChar (n % 10)).isDigit = true :=
      digitChar_isDigit (n % 10) (Nat.mod_lt n (by norm_num))
    have hacc' : ∀ c ∈ Nat.digitChar (n % 10) :: acc, c.isDigit = true := by
      intro c hc
      rcases List.mem_cons.mp hc with hc | hc
      · exact hc ▸ hd
      · exact hacc c hc
    by_cases h0 : n / 10 = 0
    · intro c hc
      rw [show Nat.toDigitsCore 10 (f + 1) n acc = Nat.digitChar (n % 10) :: acc by
        simp [Nat.toDigitsCore, h0]] at hc
      exact hacc' c hc
    · intro c hc
      rw [show Nat.toDigitsCore 10 (f + 1) n acc =
          Nat.toDigitsCore 10 f (n / 10) (Nat.digitChar (n % 10) :: acc) by
        simp [Nat.toDigitsCore, h0]] at hc
      exact ih (n / 10) (Nat.digitChar (n % 10) :: acc) hacc' c hc

/-- The decimal rendering of a number between 1000 and 9999 is four digit
characters. -/
theorem repr_data_of_four_digit {n : Nat} (h1 : 1000 ≤ n) (h2 : n ≤ 9999) :
    (Nat.repr n).data.length = 4 ∧ ∀ c ∈ (Nat.repr n).data, c.isDigit = true := by
  have hdata : (Nat.repr n).data = Nat.toDigitsCore 10 (n + 1) n [] := rfl
  have hlog : Nat.log 10 n = 3 := by
    have e3 : (10 : ℕ) ^ 3 = 1000 := by norm_num
    have e4 : (10 : ℕ) ^ (3 + 1) = 10000 := by norm_num
    exact Nat.log_eq_of_pow_le_of_lt_pow (by omega) (by omega)
  constructor
  · rw [hdata, toDigitsCore_length (n + 1) n [] (by omega)]
    simp [hlog]
  · rw [hdata]
    exact toDigitsCore_digits (n + 1) n [] (by simp)

/-- The identifier built from any draw in `random.randint(1000, 9999)`'s range
matches the spec's pattern `U[0-9]{4}`. -/
theorem matchesUPattern_mkUserId {n : Nat} (h1 : 1000 ≤ n) (h2 : n ≤ 9999) :
    matchesUPattern (mkUserId n) = true := by
  obtain ⟨hlen, hdig⟩ := repr_data_of_four_digit h1 h2
  have hd : (mkUserId n).data = 'U' :: (Nat.repr n).data := by
    simp [mkUserId, String.data_append]
  simp only [matchesUPattern, hd, List.head?_cons, List.tail_cons]
  rw [List.all_eq_true.mpr hdig]
  simp [hlen]

/-- A returned identifier is one of the draws and was free in the profile
store at the moment `generate_user_id` returned it. -/
theorem generate_user_id_some_spec (fuel : Nat) :
    ∀ (draws : Nat → Nat) (profiles : List UserProfile) (uid : String),
      generate_user_id fuel draws profiles = some uid →
        (∃ k, uid = mkUserId (draws k)) ∧ idTaken profiles uid = false := by
  induction fuel with
  | zero => intro draws profiles uid h; simp [generate_user_id] at h
  | succ f ih =>
    intro draws profiles uid h
    by_cases ht : idTaken profiles (mkUserId (draws 0)) = true
    · have h' : generate_user_id f (fun k => draws (k + 1)) profiles = some uid := by
        simpa [generate_user_id, ht] using h
      obtain ⟨⟨k, hk⟩, hfree⟩ := ih _ _ _ h'
      exact ⟨⟨k + 1, hk⟩, hfree⟩
    · have huid : uid = mkUserId (draws 0) := by
        have := h
        simp [generate_user_id, ht] at this
        exact this.symm
      subst huid
      exact ⟨⟨0, rfl⟩, by simpa using ht⟩

/-- Inversion of `signup`'s success path: a success response pins down every
step the handler took — the captcha comparison passed, the four required
fields were truthy, the allocator returned an identifier, and the response and
the new store state are exactly the built documents. -/
theorem signup_success_inv {req : SignupRequest} {st : Stores} {draws : Nat → Nat}
    {salt : Nat} {now : String} {fuel : Nat} {msg : String} {profile : UserProfile}
    {st' : Stores}
    (h : signup req st draws salt now fuel = some (.success msg profile, st')) :
    ∃ uid ca cc a,
      req.captcha_answer = some ca ∧ pyInt ca = some a ∧
      req.client_captcha = some cc ∧ pyInt cc = some a ∧
      generate_user_id fuel draws st.user_profiles = some uid ∧
      (truthy req.name && truthy req.user_category && truthy req.eco_index &&
        truthy req.password) = true ∧
      msg = "Welcome, " ++ pyStr req.name ++ "!" ∧
      profile = builtProfile req uid now ∧
      st' = ⟨st.user_profiles ++ [profile],
             st.user_authentications ++ [builtAuth req uid now salt]⟩ := by
  simp only [signup] at h
  split at h
  · simp at h
  · split at h
    · simp at h
    · split at h
      · simp at h
      · split at h
        · simp at h
        · split at h
          · simp at h
          · split at h
            · simp at h
            · split at h
              · simp at h
              · rename_i xa ca hca xb a ha xc cc hcc xd c hc hne hfields xe uid hgen
                have hac : a = c := not_not.mp hne
                subst hac
                have hfields' : (truthy req.name && truthy req.user_category &&
                    truthy req.eco_index && truthy req.password) = true := by
                  simpa using hfields
                simp only [Option.some.injEq, Prod.mk.injEq,
                  SignupResult.success.injEq] at h
                obtain ⟨⟨hmsg, hprof⟩, hst⟩ := h
                refine ⟨uid, ca, cc, a, hca, ha, hcc, hc, hgen, hfields',
                  hmsg.symm, hprof.symm, ?_⟩
                rw [← hst, ← hprof]
                simp [builtAuth]

/-- Forward computation of `signup`'s success path: when the captcha passes,
the four required fields are truthy and the allocator returns `uid` within the
observed iterations, the handler answers with the welcome message and the
built profile, and appends the built profile and credential documents. -/
theorem signup_success_fwd (req : SignupRequest) (st : Stores) (draws : Nat → Nat)
    (salt : Nat) (now : String) (fuel : Nat) (ca cc : String) (a : Int) (uid : String)
    (hca : req.captcha_answer = some ca) (ha : pyInt ca = some a)
    (hcc : req.client_captcha = some cc) (hc : pyInt cc = some a)
    (hfields : (truthy req.name && truthy req.user_category && truthy req.eco_index &&
      truthy req.password) = true)
    (hgen : generate_user_id fuel draws st.user_profiles = some uid) :
    signup req st draws salt now fuel =
      some (.success ("Welcome, " ++ pyStr req.name ++ "!") (builtProfile req uid now),
        ⟨st.user_profiles ++ [builtProfile req uid now],
         st.user_authentications ++ [builtAuth req uid now salt]⟩) := by
  simp [signup, hca, ha, hcc, hc, hfields, hgen, builtProfile, builtAuth]

/-- Unpacking a passed captcha check into the shape of the source's branches:
both fields present, both parse, equal values. -/
theorem captchaOk_elim {req : SignupRequest} (h : captchaOk req = true) :
    ∃ ca cc a, req.captcha_answer = some ca ∧ pyInt ca = some a ∧
      req.client_captcha = some cc ∧ pyInt cc = some a := by
  unfold captchaOk at h
  rcases hca : req.captcha_answer.bind pyInt with _ | a
  · rw [hca] at h; simp at h
  · rw [hca] at h
    rcases hcc : req.client_captcha.bind pyInt with _ | c
    · rw [hcc] at h; simp at h
    · rw [hcc] at h
      simp at h
      obtain ⟨ca, hca1, hca2⟩ := Option.bind_eq_some.mp hca
      obtain ⟨cc, hcc1, hcc2⟩ := Option.bind_eq_some.mp hcc
      exact ⟨ca, cc, a, hca1, hca2, hcc1, by rw [hcc2, h]⟩

/-- When the captcha passes but the required-field conjunction is falsy,
`signup` answers "Missing required fields" and leaves both collections
untouched. -/
theorem signup_missing_fields (req : SignupRequest) (st : Stores) (draws : Nat → Nat)
    (salt : Nat) (now : String) (fuel : Nat)
    (hcap : captchaOk req = true)
    (hfields : (truthy req.name && truthy req.user_category && truthy req.eco_index &&
      truthy req.password) = false) :
    signup req st draws salt now fuel = some (.missingFields, st) := by
  obtain ⟨ca, cc, a, hca, ha, hcc, hc⟩ := captchaOk_elim hcap
  simp [signup, hca, ha, hcc, hc, hfields]

/-- C2: every successful signup returns an identity matching `U[0-9]{4}`
(given `random.randint(1000, 9999)`'s contract on the draws), and at the
moment it is returned no profile with that `user_id` exists in the profile
store the allocator checked against. -/
theorem C2_signup_identity_pattern_unique (req : SignupRequest) (st : Stores)
    (draws : Nat → Nat) (salt : Nat) (now : String) (fuel : Nat) (msg : String)
    (profile : UserProfile) (st' : Stores)
    (hdraws : ∀ k, 1000 ≤ draws k ∧ draws k ≤ 9999)
    (h : signup req st draws salt now fuel = some (.success msg profile, st')) :
    matchesUPattern profile.user_id = true ∧
    idTaken st.user_profiles profile.user_id = false := by
  obtain ⟨uid, ca, cc, a, _, _, _, _, hgen, _, _, hprof, _⟩ := signup_success_inv h
  obtain ⟨⟨k, hk⟩, hfree⟩ :=
    generate_user_id_some_spec fuel draws st.user_profiles uid hgen
  have hid : profile.user_id = uid := by rw [hprof]; rfl
  rw [hid, hk]
  exact ⟨matchesUPattern_mkUserId (hdraws k).1 (hdraws k).2, hk ▸ hfree⟩

/-- Witness for C2: the spec's concrete `User` signup on a fresh store with
draw 1234 yields the identifier `U1234`, matching the pattern and free. -/
theorem C2_witness :
    matchesUPattern profAsha.user_id = true ∧
    idTaken st0.user_profiles profAsha.user_id = false :=
  C2_signup_identity_pattern_unique reqAsha st0 d1234 7 "t" 1 "Welcome, Asha!"
    profAsha stAsha (fun k => ⟨by norm_num [d1234], by norm_num [d1234]⟩) (by decide)

/-- C3 counterexample: the error outcome does not list which fields are
absent.  A request missing only `name` and a request missing only `password`
produce the identical response ("Missing required fields"), so the outcome
carries no information about which fields were absent. -/
theorem C3_counterexample :
    signup reqNoName st0 d1234 7 "t" 1 = some (.missingFields, st0) ∧
    signup reqNoPassword st0 d1234 7 "t" 1 = some (.missingFields, st0) ∧
    signup reqNoName st0 d1234 7 "t" 1 = signup reqNoPassword st0 d1234 7 "t" 1 ∧
    reqNoName.name = none ∧ reqNoName.password = some "secretpw" ∧
    reqNoPassword.password = none ∧ reqNoPassword.name = some "Asha" := by
  decide

/-- C3 amended: for every signup request (passing the caller-side captcha
comparison) in which at least one of the required fields {name, category,
ecoIndex, password} is absent, `signup` returns the missing-fields error with
a generic message (it does not list which fields are absent), and neither a
profile document nor a credential document is persisted: both collections are
exactly as before. -/
theorem C3_missing_fields_no_write (req : SignupRequest) (st : Stores)
    (draws : Nat → Nat) (salt : Nat) (now : String) (fuel : Nat)
    (hcap : captchaOk req = true)
    (habs : req.name = none ∨ req.user_category = none ∨ req.eco_index = none ∨
      req.password = none) :
    signup req st draws salt now fuel = some (.missingFields, st) := by
  apply signup_missing_fields _ _ _ _ _ _ hcap
  rcases habs with hn | hn | hn | hn <;> simp [truthy, hn]

/-- Witness for C3: the password-less request on a fresh store. -/
theorem C3_witness :
    captchaOk reqNoPassword = true ∧
    signup reqNoPassword st0 d1234 7 "t" 1 = some (SignupResult.missingFields, st0) :=
  ⟨by decide,
    C3_missing_fields_no_write reqNoPassword st0 d1234 7 "t" 1 (by decide)
      (Or.inr (Or.inr (Or.inr rfl)))⟩

/-- C6: on every successful signup, category `Admin` forces the stored
`user_type` and `location` to the empty string regardless of the supplied
values, while category `User` keeps the supplied values. -/
theorem C6_admin_forces_empty_type_location (req : SignupRequest) (st : Stores)
    (draws : Nat → Nat) (salt : Nat) (now : String) (fuel : Nat) (msg : String)
    (profile : UserProfile) (st' : Stores)
    (h : signup req st draws salt now fuel = some (.success msg profile, st')) :
    (req.user_category = some "Admin" →
      profile.user_type = some "" ∧ profile.location = some "") ∧
    (req.user_category = some "User" →
      profile.user_type = req.user_type ∧ profile.location = req.location) := by
  obtain ⟨uid, ca, cc, a, _, _, _, _, _, _, _, hprof, _⟩ := signup_success_inv h
  subst hprof
  constructor
  · intro hcat; constructor <;> simp [builtProfile, hcat]
  · intro hcat; constructor <;> simp [builtProfile, hcat]

/-- Witness for C6: the `Admin` request supplied type `Organisation` and
location `Delhi`, yet the created profile stores empty strings for both. -/
theorem C6_witness :
    reqAdmin.user_type = some "Organisation" ∧ reqAdmin.location = some "Delhi" ∧
    profAdmin.user_type = some "" ∧ profAdmin.location = some "" :=
  ⟨by decide, by decide,
    ((C6_admin_forces_empty_type_location reqAdmin st0 d1234 7 "t" 1 "Welcome, Bea!"
      profAdmin stAdmin (by decide)).1 rfl).1,
    ((C6_admin_forces_empty_type_location reqAdmin st0 d1234 7 "t" 1 "Welcome, Bea!"
      profAdmin stAdmin (by decide)).1 rfl).2⟩

/-- C9: every successful signup returns the created profile — with its
`user_id`, the request's name, category and eco-index, the creation timestamp
and an empty `linked_infrastructures` sequence — exactly the document appended
to the profile store, and the returned value contains no credential material:
replacing the request's password by any other non-empty password leaves the
returned value (message and profile) unchanged, so neither the plaintext nor
the stored hash nor any field of the credential document appears in it. -/
theorem C9_returns_profile_without_credentials (req : SignupRequest) (st : Stores)
    (draws : Nat → Nat) (salt : Nat) (now : String) (fuel : Nat) (msg : String)
    (profile : UserProfile) (st' : Stores)
    (h : signup req st draws salt now fuel = some (.success msg profile, st')) :
    profile.linked_infrastructures = [] ∧
    profile.name = req.name ∧
    profile.user_category = req.user_category ∧
    profile.eco_index = req.eco_index ∧
    profile.created_on = now ∧
    st'.user_profiles = st.user_profiles ++ [profile] ∧
    msg = "Welcome, " ++ pyStr req.name ++ "!" ∧
    ∀ pw' : String, pw' ≠ "" →
      Option.map Prod.fst (signup { req with password := some pw' } st draws salt now fuel) =
        some (.success msg profile) := by
  obtain ⟨uid, ca, cc, a, hca, ha, hcc, hc, hgen, hfields, hmsg, hprof, hst⟩ :=
    signup_success_inv h
  refine ⟨by rw [hprof]; rfl, by rw [hprof]; rfl, by rw [hprof]; rfl,
    by rw [hprof]; rfl, by rw [hprof]; rfl, by rw [hst], hmsg, ?_⟩
  intro pw' hpw'
  have hp' : truthy (some pw') = true := by simp [truthy, hpw']
  simp only [Bool.and_eq_true] at hfields
  obtain ⟨⟨⟨h1, h2⟩, h3⟩, _⟩ := hfields
  have hfields' : (truthy ({ req with password := some pw' } : SignupRequest).name &&
      truthy ({ req with password := some pw' } : SignupRequest).user_category &&
      truthy ({ req with password := some pw' } : SignupRequest).eco_index &&
      truthy ({ req with password := some pw' } : SignupRequest).password) = true := by
    simp only [Bool.and_eq_true]
    exact ⟨⟨⟨h1, h2⟩, h3⟩, hp'⟩
  have hfwd := signup_success_fwd { req with password := some pw' } st draws salt now
    fuel ca cc a uid hca ha hcc hc hfields' hgen
  rw [hfwd]
  simp only [Option.map_some']
  rw [hmsg, hprof]
  simp [builtProfile]

/-- Witness for C9: the concrete `User` signup; swapping the password for
`otherpw` leaves the returned message and profile unchanged. -/
theorem C9_witness :
    profAsha.linked_infrastructures = [] ∧
    profAsha.name = reqAsha.name ∧
    stAsha.user_profiles = st0.user_profiles ++ [profAsha] ∧
    Option.map Prod.fst (signup { reqAsha with password := some "otherpw" } st0 d1234 7 "t" 1) =
      some (SignupResult.success "Welcome, Asha!" profAsha) := by
  have w := C9_returns_profile_without_credentials reqAsha st0 d1234 7 "t" 1
    "Welcome, Asha!" profAsha stAsha (by decide)
  exact ⟨w.1, w.2.1, w.2.2.2.2.2.1, w.2.2.2.2.2.2.2 "otherpw" (by decide)⟩

/-- C10: a signup request whose password is present but empty (with the
captcha passing) takes the missing-field error path — the presence check of
line 60 treats the empty string as absent — so the hasher is never reached
and both collections are exactly as before. -/
theorem C10_empty_password_missing_field_path (req : SignupRequest) (st : Stores)
    (draws : Nat → Nat) (salt : Nat) (now : String) (fuel : Nat)
    (hcap : captchaOk req = true) (hpw : req.password = some "") :
    signup req st draws salt now fuel = some (.missingFields, st) := by
  apply signup_missing_fields _ _ _ _ _ _ hcap
  have he : truthy (some "") = false := by decide
  simp [hpw, he]

/-- Witness for C10: the `User` request with an empty password string. -/
theorem C10_witness :
    captchaOk { reqAsha with password := some "" } = true ∧
    signup { reqAsha with password := some "" } st0 d1234 7 "t" 1 =
      some (SignupResult.missingFields, st0) :=
  ⟨by decide,
    C10_empty_password_missing_field_path { reqAsha with password := some "" }
      st0 d1234 7 "t" 1 (by decide) rfl⟩
